import Mathlib

/-!
Shallow embedding of the taste-profiling and target-synthesis core of the
spotify-playlist-gen repository (src/lib/taste-analyzer.ts and
src/lib/spotify-client.ts), together with theorems settling the frozen
claims about it.  Numeric audio features are modelled as rationals; the
external recommendation provider is modelled as an explicit function
parameter; fallible operations return `Except String`.
-/

namespace SpotifyGen

/-- Per-track audio descriptor (types/spotify.ts `AudioFeatures`), minus the
    `id` field which the embedding carries in the descriptor map's key. -/
structure AudioFeatures where
  danceability : ℚ
  energy : ℚ
  valence : ℚ
  acousticness : ℚ
  instrumentalness : ℚ
  tempo : ℚ
  loudness : ℚ
  mode : ℕ
  deriving DecidableEq, Repr

/-- The track fields the core actually reads (types/spotify.ts `SpotifyTrack`). -/
structure SpotifyTrack where
  id : String
  popularity : ℤ
  duration_ms : ℕ
  deriving DecidableEq, Repr

/-- `AnalysisData` from taste-analyzer.ts: the four track tiers plus the
    audio-descriptor map (the TypeScript `Map<string, AudioFeatures>` is
    modelled as a partial function from track id). -/
structure AnalysisData where
  topTracksShort : List SpotifyTrack
  topTracksMedium : List SpotifyTrack
  topTracksLong : List SpotifyTrack
  recentlyPlayed : List SpotifyTrack
  audioFeatures : String → Option AudioFeatures

/-- The weighted track list built at the top of `buildTasteProfile`
    (taste-analyzer.ts lines 76-81): each tier contributes its tracks with
    weight tierBase * (50 - i) / 50 at 0-based rank i. -/
def weightedTracks (d : AnalysisData) : List (SpotifyTrack × ℚ) :=
  d.topTracksShort.enum.map (fun p => (p.2, 3 * ((50 : ℚ) - p.1) / 50))
  ++ d.topTracksMedium.enum.map (fun p => (p.2, 2 * ((50 : ℚ) - p.1) / 50))
  ++ d.topTracksLong.enum.map (fun p => (p.2, 1 * ((50 : ℚ) - p.1) / 50))
  ++ d.recentlyPlayed.enum.map (fun p => (p.2, 5 / 2 * ((50 : ℚ) - p.1) / 50))

/-- Mutable accumulator state of the feature loop in `buildTasteProfile`
    (taste-analyzer.ts lines 103-152); defaults are the initial values. -/
structure ProfileAcc where
  totalWeight : ℚ := 0
  sumDanceability : ℚ := 0
  sumEnergy : ℚ := 0
  sumValence : ℚ := 0
  sumAcousticness : ℚ := 0
  sumInstrumentalness : ℚ := 0
  sumTempo : ℚ := 0
  sumLoudness : ℚ := 0
  minDanceability : ℚ := 1
  minEnergy : ℚ := 1
  minValence : ℚ := 1
  minTempo : ℚ := 300
  maxDanceability : ℚ := 0
  maxEnergy : ℚ := 0
  maxValence : ℚ := 0
  maxTempo : ℚ := 0
  majorCount : ℕ := 0
  minorCount : ℕ := 0
  totalPopularity : ℤ := 0
  trackCount : ℕ := 0
  deriving DecidableEq, Repr

/-- One iteration of the `for (const { track, weight } of weightedTracks)`
    loop: a track with no descriptor is skipped (`if (!features) continue`),
    otherwise all accumulators are updated. -/
def accumTrack (m : String → Option AudioFeatures) (acc : ProfileAcc)
    (p : SpotifyTrack × ℚ) : ProfileAcc :=
  match m p.1.id with
  | none => acc
  | some f =>
    { totalWeight := acc.totalWeight + p.2
      sumDanceability := acc.sumDanceability + f.danceability * p.2
      sumEnergy := acc.sumEnergy + f.energy * p.2
      sumValence := acc.sumValence + f.valence * p.2
      sumAcousticness := acc.sumAcousticness + f.acousticness * p.2
      sumInstrumentalness := acc.sumInstrumentalness + f.instrumentalness * p.2
      sumTempo := acc.sumTempo + f.tempo * p.2
      sumLoudness := acc.sumLoudness + f.loudness * p.2
      minDanceability := min acc.minDanceability f.danceability
      minEnergy := min acc.minEnergy f.energy
      minValence := min acc.minValence f.valence
      minTempo := min acc.minTempo f.tempo
      maxDanceability := max acc.maxDanceability f.danceability
      maxEnergy := max acc.maxEnergy f.energy
      maxValence := max acc.maxValence f.valence
      maxTempo := max acc.maxTempo f.tempo
      majorCount := if f.mode = 1 then acc.majorCount + 1 else acc.majorCount
      minorCount := if f.mode = 1 then acc.minorCount else acc.minorCount + 1
      totalPopularity := acc.totalPopularity + p.1.popularity
      trackCount := acc.trackCount + 1 }

/-- The accumulator after the whole feature loop of `buildTasteProfile`. -/
def profileAcc (d : AnalysisData) : ProfileAcc :=
  (weightedTracks d).foldl (accumTrack d.audioFeatures) {}

/-- The seven weighted-average audio features. -/
structure AvgFeatures where
  danceability : ℚ
  energy : ℚ
  valence : ℚ
  acousticness : ℚ
  instrumentalness : ℚ
  tempo : ℚ
  loudness : ℚ
  deriving DecidableEq, Repr

/-- `avgFeatures` as computed in taste-analyzer.ts lines 154-162: each
    feature sum divided by the total accumulated weight.  Division is the
    total division of ℚ (the JavaScript source divides floats and produces
    NaN when both operands are 0; the zero-denominator situation itself is
    what claim C8 is about). -/
def avgFeatures (d : AnalysisData) : AvgFeatures :=
  let a := profileAcc d
  { danceability := a.sumDanceability / a.totalWeight
    energy := a.sumEnergy / a.totalWeight
    valence := a.sumValence / a.totalWeight
    acousticness := a.sumAcousticness / a.totalWeight
    instrumentalness := a.sumInstrumentalness / a.totalWeight
    tempo := a.sumTempo / a.totalWeight
    loudness := a.sumLoudness / a.totalWeight }

/-- `listeningPatterns.avgPopularity` (taste-analyzer.ts line 183):
    popularity sum divided by the unweighted track count. -/
def avgPopularity (d : AnalysisData) : ℚ :=
  ((profileAcc d).totalPopularity : ℚ) / ((profileAcc d).trackCount : ℚ)

/-- The descriptors that actually contribute to the weighted sums: those of
    weighted tracks whose id is present in the audio-descriptor map. -/
def contributingDescriptors (d : AnalysisData) : List AudioFeatures :=
  (weightedTracks d).filterMap (fun p => d.audioFeatures p.1.id)

/- ### Spec-side definitions (used only to compare against the source) -/

/-- The four history tiers named by the spec's weight schedule. -/
inductive Tier
  | short
  | medium
  | long
  | recent
  deriving DecidableEq, Repr

/-- Modelled from the spec: tierBaseWeight ∈ \x7bshort:3, recent:2.5,
    medium:2, long:1\x7d. -/
def tierBaseWeight : Tier → ℚ
  | .short => 3
  | .medium => 2
  | .long => 1
  | .recent => 5 / 2

/-- Modelled from the spec: weight = tierBaseWeight × (50 − rankIndex)/50. -/
def specTrackWeight (t : Tier) (rankIndex : ℕ) : ℚ :=
  tierBaseWeight t * ((50 : ℚ) - rankIndex) / 50

/-- The RawHistory bound of §4.1: each tier is fetched with limit 50. -/
def TierCapped (d : AnalysisData) : Prop :=
  d.topTracksShort.length ≤ 50 ∧ d.topTracksMedium.length ≤ 50 ∧
  d.topTracksLong.length ≤ 50 ∧ d.recentlyPlayed.length ≤ 50

/-- `v` lies between every lower and upper bound of the list `xs`; applied
    with `lo = min xs` and `hi = max xs` this is "bounded by extremes". -/
def BoundedByExtremes (xs : List ℚ) (v : ℚ) : Prop :=
  ∀ lo hi : ℚ, (∀ x ∈ xs, lo ≤ x ∧ x ≤ hi) → lo ≤ v ∧ v ≤ hi

/- ### Helper lemmas about the feature-accumulation loop -/

/-- Skipped tracks (no descriptor) can be dropped from the fold outright. -/
theorem foldl_accumTrack_filter (m : String → Option AudioFeatures) :
    ∀ (l : List (SpotifyTrack × ℚ)) (acc : ProfileAcc),
      l.foldl (accumTrack m) acc
        = (l.filter (fun p => (m p.1.id).isSome)).foldl (accumTrack m) acc
  | [], _ => rfl
  | p :: l, acc => by
    cases h : m p.1.id with
    | none =>
      simp only [List.foldl_cons, List.filter_cons, h, Option.isSome_none,
        Bool.false_eq_true, if_false, accumTrack]
      exact foldl_accumTrack_filter m l acc
    | some f =>
      simp only [List.foldl_cons, List.filter_cons, h, Option.isSome_some, if_true]
      exact foldl_accumTrack_filter m l _

/-- If no track in the list has a descriptor, the loop leaves the
    accumulator untouched. -/
theorem foldl_accumTrack_all_none (m : String → Option AudioFeatures) :
    ∀ (l : List (SpotifyTrack × ℚ)), (∀ p ∈ l, m p.1.id = none) →
      ∀ acc : ProfileAcc, l.foldl (accumTrack m) acc = acc
  | [], _, _ => rfl
  | p :: l, h, acc => by
    have hp : m p.1.id = none := h p (List.mem_cons_self p l)
    simp only [List.foldl_cons, accumTrack, hp]
    exact foldl_accumTrack_all_none m l (fun q hq => h q (List.mem_cons_of_mem p hq)) acc

/- ### Claims C1 and C8 -/

/-- C1: `buildTasteProfile` assigns every track the weight
    tierBaseWeight × (50 − rankIndex)/50 (base 3 short-term, 2.5
    recently-played, 2 medium-term, 1 long-term, rankIndex 0-based within
    its tier); a track whose id is absent from the audio-descriptor map
    contributes nothing to the weighted feature sums or the total weight,
    and the assigned weights do not depend on the descriptor map at all. -/
theorem buildTasteProfile_weight_schedule (d : AnalysisData) :
    (weightedTracks d =
      d.topTracksShort.enum.map (fun p => (p.2, specTrackWeight .short p.1))
      ++ d.topTracksMedium.enum.map (fun p => (p.2, specTrackWeight .medium p.1))
      ++ d.topTracksLong.enum.map (fun p => (p.2, specTrackWeight .long p.1))
      ++ d.recentlyPlayed.enum.map (fun p => (p.2, specTrackWeight .recent p.1)))
    ∧ (∀ m, weightedTracks { d with audioFeatures := m } = weightedTracks d)
    ∧ profileAcc d
        = ((weightedTracks d).filter
            (fun p => (d.audioFeatures p.1.id).isSome)).foldl
            (accumTrack d.audioFeatures) {} :=
  ⟨rfl, fun _ => rfl, foldl_accumTrack_filter d.audioFeatures (weightedTracks d) {}⟩

/-- C8: when no weighted track has a descriptor, the total accumulated
    weight is zero and every feature sum (and the popularity sum and track
    count) is zero, so each avgFeatures component — and avgPopularity — is
    computed as an unguarded 0/0 division. -/
theorem zeroWeight_division_unguarded (d : AnalysisData)
    (h : ∀ p ∈ weightedTracks d, d.audioFeatures p.1.id = none) :
    (profileAcc d).totalWeight = 0 ∧
    (profileAcc d).sumDanceability = 0 ∧ (profileAcc d).sumEnergy = 0 ∧
    (profileAcc d).sumValence = 0 ∧ (profileAcc d).sumAcousticness = 0 ∧
    (profileAcc d).sumInstrumentalness = 0 ∧ (profileAcc d).sumTempo = 0 ∧
    (profileAcc d).sumLoudness = 0 ∧
    (profileAcc d).trackCount = 0 ∧ (profileAcc d).totalPopularity = 0 := by
  have hz : profileAcc d = {} :=
    foldl_accumTrack_all_none d.audioFeatures (weightedTracks d) h {}
  rw [hz]
  exact ⟨rfl, rfl, rfl, rfl, rfl, rfl, rfl, rfl, rfl, rfl⟩

/- ### Claim C2: weighted averages bounded by extremes -/

/-- Total weight contributed by the tracks of `l` that have a descriptor. -/
def wWeight (m : String → Option AudioFeatures) : List (SpotifyTrack × ℚ) → ℚ
  | [] => 0
  | p :: l => (match m p.1.id with | none => 0 | some _ => p.2) + wWeight m l

/-- Weighted sum of the descriptor component `g` over the tracks of `l`
    that have a descriptor. -/
def wSum (m : String → Option AudioFeatures) (g : AudioFeatures → ℚ) :
    List (SpotifyTrack × ℚ) → ℚ
  | [] => 0
  | p :: l => (match m p.1.id with | none => 0 | some f => g f * p.2) + wSum m g l

/-- The additive fields of the loop accumulator, in closed form. -/
theorem foldl_accumTrack_sums (m : String → Option AudioFeatures) :
    ∀ (l : List (SpotifyTrack × ℚ)) (acc : ProfileAcc),
      (l.foldl (accumTrack m) acc).totalWeight = acc.totalWeight + wWeight m l ∧
      (l.foldl (accumTrack m) acc).sumDanceability
        = acc.sumDanceability + wSum m (fun f => f.danceability) l ∧
      (l.foldl (accumTrack m) acc).sumEnergy
        = acc.sumEnergy + wSum m (fun f => f.energy) l ∧
      (l.foldl (accumTrack m) acc).sumValence
        = acc.sumValence + wSum m (fun f => f.valence) l ∧
      (l.foldl (accumTrack m) acc).sumAcousticness
        = acc.sumAcousticness + wSum m (fun f => f.acousticness) l ∧
      (l.foldl (accumTrack m) acc).sumInstrumentalness
        = acc.sumInstrumentalness + wSum m (fun f => f.instrumentalness) l ∧
      (l.foldl (accumTrack m) acc).sumTempo
        = acc.sumTempo + wSum m (fun f => f.tempo) l ∧
      (l.foldl (accumTrack m) acc).sumLoudness
        = acc.sumLoudness + wSum m (fun f => f.loudness) l
  | [], acc => by simp [wWeight, wSum]
  | p :: l, acc => by
    cases hp : m p.1.id with
    | none =>
      have ih := foldl_accumTrack_sums m l acc
      simp only [List.foldl_cons, accumTrack, hp, wWeight, wSum, zero_add]
      exact ih
    | some f =>
      obtain ⟨h1, h2, h3, h4, h5, h6, h7, h8⟩ :=
        foldl_accumTrack_sums m l (accumTrack m acc p)
      simp only [List.foldl_cons, wWeight, wSum, hp]
      refine ⟨?_, ?_, ?_, ?_, ?_, ?_, ?_, ?_⟩
      · rw [h1]; simp only [accumTrack, hp]; ring
      · rw [h2]; simp only [accumTrack, hp]; ring
      · rw [h3]; simp only [accumTrack, hp]; ring
      · rw [h4]; simp only [accumTrack, hp]; ring
      · rw [h5]; simp only [accumTrack, hp]; ring
      · rw [h6]; simp only [accumTrack, hp]; ring
      · rw [h7]; simp only [accumTrack, hp]; ring
      · rw [h8]; simp only [accumTrack, hp]; ring

/-- The accumulator fields of `profileAcc` in closed form (initial values
    are all zero). -/
theorem profileAcc_fields (d : AnalysisData) :
    (profileAcc d).totalWeight = wWeight d.audioFeatures (weightedTracks d) ∧
    (profileAcc d).sumDanceability
      = wSum d.audioFeatures (fun f => f.danceability) (weightedTracks d) ∧
    (profileAcc d).sumEnergy
      = wSum d.audioFeatures (fun f => f.energy) (weightedTracks d) ∧
    (profileAcc d).sumValence
      = wSum d.audioFeatures (fun f => f.valence) (weightedTracks d) ∧
    (profileAcc d).sumAcousticness
      = wSum d.audioFeatures (fun f => f.acousticness) (weightedTracks d) ∧
    (profileAcc d).sumInstrumentalness
      = wSum d.audioFeatures (fun f => f.instrumentalness) (weightedTracks d) ∧
    (profileAcc d).sumTempo
      = wSum d.audioFeatures (fun f => f.tempo) (weightedTracks d) ∧
    (profileAcc d).sumLoudness
      = wSum d.audioFeatures (fun f => f.loudness) (weightedTracks d) := by
  have h := foldl_accumTrack_sums d.audioFeatures (weightedTracks d) ({} : ProfileAcc)
  simpa [profileAcc] using h

/-- Weighted sums are squeezed between `lo` and `hi` times the total
    weight, so long as every weight is positive and every contributing
    descriptor value lies in `[lo, hi]`. -/
theorem wSum_bounds (m : String → Option AudioFeatures) (g : AudioFeatures → ℚ)
    (lo hi : ℚ) :
    ∀ l : List (SpotifyTrack × ℚ), (∀ p ∈ l, 0 < p.2) →
      (∀ f ∈ l.filterMap (fun p => m p.1.id), lo ≤ g f ∧ g f ≤ hi) →
      lo * wWeight m l ≤ wSum m g l ∧ wSum m g l ≤ hi * wWeight m l ∧
        0 ≤ wWeight m l
  | [] => by simp [wWeight, wSum]
  | p :: l => by
    intro hw hb
    have hwl : ∀ q ∈ l, 0 < q.2 := fun q hq => hw q (List.mem_cons_of_mem p hq)
    cases hp : m p.1.id with
    | none =>
      have hbl : ∀ f ∈ l.filterMap (fun q => m q.1.id), lo ≤ g f ∧ g f ≤ hi := by
        intro f hf
        exact hb f (by simpa [List.filterMap_cons, hp] using hf)
      have ih := wSum_bounds m g lo hi l hwl hbl
      simpa [wWeight, wSum, hp] using ih
    | some f =>
      have hbl : ∀ f ∈ l.filterMap (fun q => m q.1.id), lo ≤ g f ∧ g f ≤ hi := by
        intro f hf
        exact hb f (by simp [List.filterMap_cons, hp, hf])
      have hf : lo ≤ g f ∧ g f ≤ hi :=
        hb f (by simp [List.filterMap_cons, hp])
      have hp2 : 0 < p.2 := hw p (List.mem_cons_self p l)
      have ih := wSum_bounds m g lo hi l hwl hbl
      have hlo : lo * p.2 ≤ g f * p.2 :=
        mul_le_mul_of_nonneg_right hf.1 (le_of_lt hp2)
      have hhi : g f * p.2 ≤ hi * p.2 :=
        mul_le_mul_of_nonneg_right hf.2 (le_of_lt hp2)
      refine ⟨?_, ?_, ?_⟩
      · simp only [wWeight, wSum, hp, mul_add]
        exact add_le_add hlo ih.1
      · simp only [wWeight, wSum, hp, mul_add]
        exact add_le_add hhi ih.2.1
      · simp only [wWeight, hp]
        exact add_nonneg (le_of_lt hp2) ih.2.2

/-- With positive weights the total accumulated weight is non-negative. -/
theorem wWeight_nonneg (m : String → Option AudioFeatures) :
    ∀ l : List (SpotifyTrack × ℚ), (∀ p ∈ l, 0 < p.2) → 0 ≤ wWeight m l
  | [], _ => le_refl 0
  | p :: l, hw => by
    have hp2 : 0 < p.2 := hw p (List.mem_cons_self p l)
    have ih := wWeight_nonneg m l (fun q hq => hw q (List.mem_cons_of_mem p hq))
    cases hp : m p.1.id with
    | none => simpa [wWeight, hp] using ih
    | some f =>
      simp only [wWeight, hp]
      exact add_nonneg (le_of_lt hp2) ih

/-- If moreover every track has a descriptor and the list is non-empty,
    the total weight is strictly positive. -/
theorem wWeight_pos (m : String → Option AudioFeatures) :
    ∀ l : List (SpotifyTrack × ℚ), (∀ p ∈ l, 0 < p.2) →
      (∀ p ∈ l, (m p.1.id).isSome = true) → l ≠ [] → 0 < wWeight m l
  | [], _, _, hne => absurd rfl hne
  | p :: l, hw, hs, _ => by
    have hp2 : 0 < p.2 := hw p (List.mem_cons_self p l)
    have hps : (m p.1.id).isSome = true := hs p (List.mem_cons_self p l)
    obtain ⟨f, hf⟩ := Option.isSome_iff_exists.mp hps
    have hnn : 0 ≤ wWeight m l :=
      wWeight_nonneg m l (fun q hq => hw q (List.mem_cons_of_mem p hq))
    simp only [wWeight, hf]
    exact add_pos_of_pos_of_nonneg hp2 hnn

/-- Under the §4.1 tier cap of 50, every weight in the weighted track list
    is strictly positive. -/
theorem weightedTracks_weight_pos (d : AnalysisData) (hcap : TierCapped d) :
    ∀ p ∈ weightedTracks d, 0 < p.2 := by
  intro p hp
  obtain ⟨h1, h2, h3, h4⟩ := hcap
  have base : ∀ (l : List SpotifyTrack) (c : ℚ), l.length ≤ 50 → 0 < c →
      ∀ q ∈ l.enum.map (fun q : ℕ × SpotifyTrack => (q.2, c * ((50 : ℚ) - q.1) / 50)),
        0 < q.2 := by
    intro l c hl hc q hq
    obtain ⟨r, hr, hrq⟩ := List.mem_map.mp hq
    have hlt : r.1 < l.length := List.fst_lt_of_mem_enum hr
    have hle : (r.1 : ℚ) ≤ 49 := by
      have : r.1 ≤ 49 := by omega
      exact_mod_cast this
    have hpos : 0 < (50 : ℚ) - r.1 := by linarith
    have : 0 < c * ((50 : ℚ) - r.1) / 50 := by positivity
    rw [← hrq]
    exact this
  rcases List.mem_append.mp hp with hp' | hp'
  · rcases List.mem_append.mp hp' with hp'' | hp''
    · rcases List.mem_append.mp hp'' with hp''' | hp'''
      · exact base d.topTracksShort 3 h1 (by norm_num) p hp'''
      · exact base d.topTracksMedium 2 h2 (by norm_num) p hp'''
    · exact base d.topTracksLong 1 h3 (by norm_num) p hp''
  · exact base d.recentlyPlayed (5 / 2) h4 (by norm_num) p hp'

/-- A single avgFeatures component, in weighted-sum form, is bounded by the
    extremes of the contributing descriptor values. -/
theorem avg_component_bounded (d : AnalysisData) (hcap : TierCapped d)
    (hall : ∀ p ∈ weightedTracks d, (d.audioFeatures p.1.id).isSome = true)
    (hne : weightedTracks d ≠ []) (g : AudioFeatures → ℚ) :
    BoundedByExtremes ((contributingDescriptors d).map g)
      (wSum d.audioFeatures g (weightedTracks d)
        / wWeight d.audioFeatures (weightedTracks d)) := by
  intro lo hi hb
  have hw : ∀ p ∈ weightedTracks d, 0 < p.2 := weightedTracks_weight_pos d hcap
  have hb' : ∀ f ∈ (weightedTracks d).filterMap (fun p => d.audioFeatures p.1.id),
      lo ≤ g f ∧ g f ≤ hi := by
    intro f hf
    exact hb (g f) (List.mem_map.mpr ⟨f, hf, rfl⟩)
  have hs := wSum_bounds d.audioFeatures g lo hi (weightedTracks d) hw hb'
  have hpos := wWeight_pos d.audioFeatures (weightedTracks d) hw hall hne
  constructor
  · exact (le_div_iff₀ hpos).mpr hs.1
  · exact (div_le_iff₀ hpos).mpr hs.2.1

/-- C2: when every weighted track has a descriptor in the audio-descriptor
    map and the weighted track list is non-empty (each tier holding at most
    the 50 items the aggregator fetches), every component of `avgFeatures`
    lies between the minimum and the maximum of that feature over the
    contributing descriptors. -/
theorem avgFeatures_bounded_by_extremes (d : AnalysisData) (hcap : TierCapped d)
    (hall : ∀ p ∈ weightedTracks d, (d.audioFeatures p.1.id).isSome = true)
    (hne : weightedTracks d ≠ []) :
    BoundedByExtremes ((contributingDescriptors d).map (fun f => f.danceability))
      (avgFeatures d).danceability ∧
    BoundedByExtremes ((contributingDescriptors d).map (fun f => f.energy))
      (avgFeatures d).energy ∧
    BoundedByExtremes ((contributingDescriptors d).map (fun f => f.valence))
      (avgFeatures d).valence ∧
    BoundedByExtremes ((contributingDescriptors d).map (fun f => f.acousticness))
      (avgFeatures d).acousticness ∧
    BoundedByExtremes ((contributingDescriptors d).map (fun f => f.instrumentalness))
      (avgFeatures d).instrumentalness ∧
    BoundedByExtremes ((contributingDescriptors d).map (fun f => f.tempo))
      (avgFeatures d).tempo ∧
    BoundedByExtremes ((contributingDescriptors d).map (fun f => f.loudness))
      (avgFeatures d).loudness := by
  obtain ⟨e0, e1, e2, e3, e4, e5, e6, e7⟩ := profileAcc_fields d
  refine ⟨?_, ?_, ?_, ?_, ?_, ?_, ?_⟩
  · have h := avg_component_bounded d hcap hall hne (fun f => f.danceability)
    simpa [avgFeatures, e0, e1] using h
  · have h := avg_component_bounded d hcap hall hne (fun f => f.energy)
    simpa [avgFeatures, e0, e2] using h
  · have h := avg_component_bounded d hcap hall hne (fun f => f.valence)
    simpa [avgFeatures, e0, e3] using h
  · have h := avg_component_bounded d hcap hall hne (fun f => f.acousticness)
    simpa [avgFeatures, e0, e4] using h
  · have h := avg_component_bounded d hcap hall hne (fun f => f.instrumentalness)
    simpa [avgFeatures, e0, e5] using h
  · have h := avg_component_bounded d hcap hall hne (fun f => f.tempo)
    simpa [avgFeatures, e0, e6] using h
  · have h := avg_component_bounded d hcap hall hne (fun f => f.loudness)
    simpa [avgFeatures, e0, e7] using h

/-- A concrete track used in witness instantiations. -/
def sampleTrack : SpotifyTrack := { id := "t1", popularity := 10, duration_ms := 200000 }

/-- Concrete history whose descriptor map is empty. -/
def noDescriptorData : AnalysisData :=
  { topTracksShort := [sampleTrack], topTracksMedium := [], topTracksLong := [],
    recentlyPlayed := [], audioFeatures := fun _ => none }

/-- A concrete audio descriptor used in witness instantiations. -/
def sampleFeatures : AudioFeatures :=
  { danceability := 1 / 2, energy := 3 / 5, valence := 2 / 5,
    acousticness := 1 / 4, instrumentalness := 1 / 10, tempo := 120,
    loudness := -7, mode := 1 }

/-- Concrete history in which every track has a descriptor. -/
def fullDescriptorData : AnalysisData :=
  { topTracksShort := [sampleTrack], topTracksMedium := [], topTracksLong := [],
    recentlyPlayed := [], audioFeatures := fun _ => some sampleFeatures }

/-- Witness for C2 at a concrete one-track history whose descriptor map is
    total. -/
theorem avgFeatures_bounded_by_extremes_witness :
    TierCapped fullDescriptorData ∧
    (∀ p ∈ weightedTracks fullDescriptorData,
      (fullDescriptorData.audioFeatures p.1.id).isSome = true) ∧
    weightedTracks fullDescriptorData ≠ [] ∧
    BoundedByExtremes
      ((contributingDescriptors fullDescriptorData).map (fun f => f.danceability))
      (avgFeatures fullDescriptorData).danceability :=
  ⟨⟨by decide, by decide, by decide, by decide⟩, fun _ _ => rfl, by decide,
   (avgFeatures_bounded_by_extremes fullDescriptorData
     ⟨by decide, by decide, by decide, by decide⟩ (fun _ _ => rfl) (by decide)).1⟩

/-- Witness for C8 at a concrete one-track history with an empty
    descriptor map. -/
theorem zeroWeight_division_unguarded_witness :
    (∀ p ∈ weightedTracks noDescriptorData,
      noDescriptorData.audioFeatures p.1.id = none) ∧
    (profileAcc noDescriptorData).totalWeight = 0 ∧
    (profileAcc noDescriptorData).trackCount = 0 :=
  ⟨fun _ _ => rfl,
   (zeroWeight_division_unguarded noDescriptorData (fun _ _ => rfl)).1,
   (zeroWeight_division_unguarded noDescriptorData (fun _ _ => rfl)).2.2.2.2.2.2.2.2.1⟩

/- ### Free-text vibe parsing (spotify-client.ts, parseVibe) -/

/-- JavaScript regex word character class \w = [A-Za-z0-9_]. -/
def isWordChar (c : Char) : Bool := c.isAlpha || c.isDigit || c = '_'

/-- A word boundary holds at the start of a keyword occurrence when the
    preceding character is absent or not a word character. -/
def boundaryOk : Option Char → Bool
  | none => true
  | some c => !isWordChar c

/-- The keyword matches at the head of `s` and is followed by a word
    boundary (end of string or a non-word character). -/
def matchesHere (kw s : List Char) : Bool :=
  kw.isPrefixOf s &&
    (match s.drop kw.length with
     | [] => true
     | c :: _ => !isWordChar c)

/-- Scans `s` for an occurrence of `kw` delimited by word boundaries;
    `prev` is the character just before the current position. -/
def wordMatchFrom (kw : List Char) (prev : Option Char) : List Char → Bool
  | [] => boundaryOk prev && matchesHere kw []
  | c :: rest =>
    (boundaryOk prev && matchesHere kw (c :: rest)) || wordMatchFrom kw (some c) rest

/-- Lower-cased character data of a string (vibe.toLowerCase()). -/
def lowerStr (s : String) : List Char := s.data.map Char.toLower

/-- Models the regex test `\b(kw1|kw2|...)\b` against the lowercased vibe:
    some keyword occurs as a whole word. -/
def testWords (kws : List String) (lowerVibe : List Char) : Bool :=
  kws.any (fun kw => wordMatchFrom kw.data none lowerVibe)

/-- The optional fields of `RecommendationParams` that the intent mapper
    and the generation strategies read and write; `none` models a key that
    is absent from the TypeScript object. -/
structure RecParams where
  seed_artists : Option (List String) := none
  seed_tracks : Option (List String) := none
  seed_genres : Option (List String) := none
  limit : Option ℕ := none
  target_energy : Option ℚ := none
  target_valence : Option ℚ := none
  target_danceability : Option ℚ := none
  target_acousticness : Option ℚ := none
  target_instrumentalness : Option ℚ := none
  target_tempo : Option ℚ := none
  min_popularity : Option ℚ := none
  max_popularity : Option ℚ := none
  deriving DecidableEq, Repr

/-- Object-spread merge of two partial parameter records, as in the
    TypeScript expression with base fields first and top fields after:
    keys present in `top` win on collision. -/
def spreadOver (base top : RecParams) : RecParams :=
  { seed_artists := top.seed_artists <|> base.seed_artists
    seed_tracks := top.seed_tracks <|> base.seed_tracks
    seed_genres := top.seed_genres <|> base.seed_genres
    limit := top.limit <|> base.limit
    target_energy := top.target_energy <|> base.target_energy
    target_valence := top.target_valence <|> base.target_valence
    target_danceability := top.target_danceability <|> base.target_danceability
    target_acousticness := top.target_acousticness <|> base.target_acousticness
    target_instrumentalness := top.target_instrumentalness <|> base.target_instrumentalness
    target_tempo := top.target_tempo <|> base.target_tempo
    min_popularity := top.min_popularity <|> base.min_popularity
    max_popularity := top.max_popularity <|> base.max_popularity }

def TIME_PRESETS_morning : RecParams :=
  { target_energy := some (1 / 2), target_valence := some (7 / 10),
    target_acousticness := some (2 / 5) }

def TIME_PRESETS_evening : RecParams :=
  { target_energy := some (11 / 20), target_valence := some (11 / 20),
    target_danceability := some (1 / 2) }

def ACTIVITY_PRESETS_workout : RecParams :=
  { target_energy := some (9 / 10), target_danceability := some (3 / 4),
    target_valence := some (7 / 10), target_tempo := some 140 }

def ACTIVITY_PRESETS_focus : RecParams :=
  { target_energy := some (2 / 5), target_instrumentalness := some (7 / 10),
    target_valence := some (1 / 2), target_acousticness := some (3 / 10) }

def ACTIVITY_PRESETS_party : RecParams :=
  { target_energy := some (17 / 20), target_danceability := some (9 / 10),
    target_valence := some (4 / 5), min_popularity := some 50 }

def ACTIVITY_PRESETS_sleep : RecParams :=
  { target_energy := some (3 / 20), target_acousticness := some (7 / 10),
    target_instrumentalness := some (1 / 2), target_tempo := some 70 }

def energyHighKeywords : List String :=
  ["hype", "pump", "intense", "powerful", "explosive", "wild"]
def energyMidKeywords : List String := ["energetic", "upbeat", "lively", "dynamic"]
def energyChillKeywords : List String :=
  ["chill", "relaxed", "mellow", "calm", "peaceful", "soft"]
def energyAmbientKeywords : List String := ["ambient", "dreamy", "floating"]
def valenceHappyKeywords : List String :=
  ["happy", "joy", "euphoric", "celebrat", "cheerful", "bright"]
def valenceSadKeywords : List String :=
  ["sad", "melanchol", "depress", "lonely", "heartbreak", "cry"]
def valenceAngryKeywords : List String := ["angry", "rage", "furious", "aggressive"]
def valenceRomanticKeywords : List String := ["romantic", "love", "sensual", "intimate"]
def danceHighKeywords : List String :=
  ["dance", "dancing", "groove", "groovy", "funky", "disco"]
def danceMidKeywords : List String := ["sway", "bob", "movement"]
def acousticKeywords : List String := ["acoustic", "unplugged", "folk", "organic"]
def electronicKeywords : List String := ["electronic", "synth", "techno", "house", "edm"]
def instrumentalKeywords : List String :=
  ["instrumental", "no vocals", "without words", "background"]
def tempoFastKeywords : List String := ["fast", "quick", "rapid", "racing"]
def tempoSlowKeywords : List String := ["slow", "slowdown", "laid back"]
def morningKeywords : List String := ["morning", "sunrise", "wake up", "breakfast"]
def lateNightKeywords : List String :=
  ["late night", "midnight", "2am", "3am", "after hours", "coding session"]
def sunsetKeywords : List String := ["sunset", "golden hour", "evening"]
def workoutKeywords : List String := ["workout", "gym", "running", "exercise", "training"]
def focusKeywords : List String := ["study", "focus", "concentrate", "work", "productivity"]
def partyKeywords : List String := ["party", "club", "pregame"]
def sleepKeywords : List String := ["sleep", "bedtime", "rest", "wind down"]
def roadTripKeywords : List String := ["road trip", "driving", "drive"]
def coffeeKeywords : List String := ["coffee", "cafe", "jazz"]

/-- parseVibe (spotify-client.ts lines 769-854): ordered keyword cascades
    followed by the short-circuiting context overrides.  In the electronic
    branch the source reads `params.target_energy || 0.5`; none of the
    values the cascade can have assigned is 0, so the JavaScript
    falsy-default coincides with `Option.getD`. -/
def parseVibe (vibe : String) : RecParams :=
  let lowerVibe := lowerStr vibe
  let params : RecParams := {}
  let params :=
    if testWords energyHighKeywords lowerVibe then
      { params with target_energy := some (9 / 10) }
    else if testWords energyMidKeywords lowerVibe then
      { params with target_energy := some (3 / 4) }
    else if testWords energyChillKeywords lowerVibe then
      { params with target_energy := some (3 / 10) }
    else if testWords energyAmbientKeywords lowerVibe then
      { params with target_energy := some (1 / 5) }
    else params
  let params :=
    if testWords valenceHappyKeywords lowerVibe then
      { params with target_valence := some (4 / 5) }
    else if testWords valenceSadKeywords lowerVibe then
      { params with target_valence := some (1 / 5) }
    else if testWords valenceAngryKeywords lowerVibe then
      { params with
        target_valence := some (1 / 5)
        target_energy := some (9 / 10) }
    else if testWords valenceRomanticKeywords lowerVibe then
      { params with
        target_valence := some (3 / 5)
        target_energy := some (2 / 5) }
    else params
  let params :=
    if testWords danceHighKeywords lowerVibe then
      { params with target_danceability := some (17 / 20) }
    else if testWords danceMidKeywords lowerVibe then
      { params with target_danceability := some (13 / 20) }
    else params
  let params :=
    if testWords acousticKeywords lowerVibe then
      { params with target_acousticness := some (4 / 5) }
    else if testWords electronicKeywords lowerVibe then
      { params with
        target_acousticness := some (1 / 10)
        target_energy := some (params.target_energy.getD (1 / 2) + 1 / 5) }
    else params
  let params :=
    if testWords instrumentalKeywords lowerVibe then
      { params with target_instrumentalness := some (4 / 5) }
    else params
  let params :=
    if testWords tempoFastKeywords lowerVibe then
      { params with target_tempo := some 140 }
    else if testWords tempoSlowKeywords lowerVibe then
      { params with target_tempo := some 80 }
    else params
  if testWords morningKeywords lowerVibe then spreadOver TIME_PRESETS_morning params
  else if testWords lateNightKeywords lowerVibe then
    spreadOver
      { target_energy := some (9 / 20)
        target_valence := some (2 / 5)
        target_instrumentalness := some (2 / 5) } params
  else if testWords sunsetKeywords lowerVibe then spreadOver TIME_PRESETS_evening params
  else if testWords workoutKeywords lowerVibe then
    spreadOver ACTIVITY_PRESETS_workout params
  else if testWords focusKeywords lowerVibe then spreadOver ACTIVITY_PRESETS_focus params
  else if testWords partyKeywords lowerVibe then spreadOver ACTIVITY_PRESETS_party params
  else if testWords sleepKeywords lowerVibe then spreadOver ACTIVITY_PRESETS_sleep params
  else if testWords roadTripKeywords lowerVibe then
    spreadOver
      { target_energy := some (7 / 10)
        target_valence := some (7 / 10)
        target_danceability := some (3 / 5) } params
  else if testWords coffeeKeywords lowerVibe then
    spreadOver
      { target_energy := some (2 / 5)
        target_acousticness := some (3 / 5)
        target_instrumentalness := some (2 / 5) } params
  else params

/-- C3: parseVibe on the literal input "chill sunday morning coffee"
    returns the morning preset merged as base with the keyword-cascade
    values on top: energy 0.3 from the chill keyword overriding the
    morning preset, valence 0.7 and acousticness 0.4 from the morning
    preset (the coffee context is never reached), and no other keys. -/
theorem parseVibe_chill_sunday_morning_coffee :
    parseVibe "chill sunday morning coffee" =
      { target_energy := some (3 / 10), target_valence := some (7 / 10),
        target_acousticness := some (2 / 5) } := by
  have e1 : testWords energyHighKeywords (lowerStr "chill sunday morning coffee") = false := by
    decide
  have e2 : testWords energyMidKeywords (lowerStr "chill sunday morning coffee") = false := by
    decide
  have e3 : testWords energyChillKeywords (lowerStr "chill sunday morning coffee") = true := by
    decide
  have v1 : testWords valenceHappyKeywords (lowerStr "chill sunday morning coffee") = false := by
    decide
  have v2 : testWords valenceSadKeywords (lowerStr "chill sunday morning coffee") = false := by
    decide
  have v3 : testWords valenceAngryKeywords (lowerStr "chill sunday morning coffee") = false := by
    decide
  have v4 : testWords valenceRomanticKeywords (lowerStr "chill sunday morning coffee") = false := by
    decide
  have d1 : testWords danceHighKeywords (lowerStr "chill sunday morning coffee") = false := by
    decide
  have d2 : testWords danceMidKeywords (lowerStr "chill sunday morning coffee") = false := by
    decide
  have a1 : testWords acousticKeywords (lowerStr "chill sunday morning coffee") = false := by
    decide
  have a2 : testWords electronicKeywords (lowerStr "chill sunday morning coffee") = false := by
    decide
  have i1 : testWords instrumentalKeywords (lowerStr "chill sunday morning coffee") = false := by
    decide
  have t1 : testWords tempoFastKeywords (lowerStr "chill sunday morning coffee") = false := by
    decide
  have t2 : testWords tempoSlowKeywords (lowerStr "chill sunday morning coffee") = false := by
    decide
  have c1 : testWords morningKeywords (lowerStr "chill sunday morning coffee") = true := by
    decide
  simp [parseVibe, e1, e2, e3, v1, v2, v3, v4, d1, d2, a1, a2, i1, t1, t2, c1,
    spreadOver, TIME_PRESETS_morning]

/-- C9 (amended): a vibe that matches the highest energy keyword group and
    the electronic keyword group, matches none of the angry, romantic or
    acoustic groups (each of which would overwrite the 0.9 base energy),
    and matches no context phrase, gets target_energy = 0.9 + 0.2 = 1.1,
    strictly above the documented [0,1] range. -/
theorem parseVibe_hype_electronic_energy_overflow (vibe : String)
    (h1 : testWords energyHighKeywords (lowerStr vibe) = true)
    (h2 : testWords valenceAngryKeywords (lowerStr vibe) = false)
    (h3 : testWords valenceRomanticKeywords (lowerStr vibe) = false)
    (h4 : testWords acousticKeywords (lowerStr vibe) = false)
    (h5 : testWords electronicKeywords (lowerStr vibe) = true)
    (hc1 : testWords morningKeywords (lowerStr vibe) = false)
    (hc2 : testWords lateNightKeywords (lowerStr vibe) = false)
    (hc3 : testWords sunsetKeywords (lowerStr vibe) = false)
    (hc4 : testWords workoutKeywords (lowerStr vibe) = false)
    (hc5 : testWords focusKeywords (lowerStr vibe) = false)
    (hc6 : testWords partyKeywords (lowerStr vibe) = false)
    (hc7 : testWords sleepKeywords (lowerStr vibe) = false)
    (hc8 : testWords roadTripKeywords (lowerStr vibe) = false)
    (hc9 : testWords coffeeKeywords (lowerStr vibe) = false) :
    (parseVibe vibe).target_energy = some (11 / 10) ∧ (1 : ℚ) < 11 / 10 := by
  refine ⟨?_, by norm_num⟩
  simp only [parseVibe, h1, h2, h3, h4, h5, hc1, hc2, hc3, hc4, hc5, hc6, hc7, hc8, hc9,
    if_true, Bool.false_eq_true, if_false]
  repeat' split
  all_goals norm_num [Option.getD]

/-- Witness for the amended C9 at the concrete vibe "hype edm". -/
theorem parseVibe_hype_electronic_energy_overflow_witness :
    testWords energyHighKeywords (lowerStr "hype edm") = true ∧
    testWords electronicKeywords (lowerStr "hype edm") = true ∧
    (parseVibe "hype edm").target_energy = some (11 / 10) :=
  ⟨by decide, by decide,
   (parseVibe_hype_electronic_energy_overflow "hype edm" (by decide) (by decide)
     (by decide) (by decide) (by decide) (by decide) (by decide) (by decide) (by decide)
     (by decide) (by decide) (by decide) (by decide) (by decide)).1⟩

/-- C9 as frozen is falsified by the vibe "hype love edm": it matches the
    highest energy group and the electronic group and no context phrase,
    yet the romantic keyword "love" rewrites energy to 0.4 before the
    electronic additive bump, so the result is 0.6, not 1.1. -/
theorem parseVibe_hype_love_edm_counterexample :
    testWords energyHighKeywords (lowerStr "hype love edm") = true ∧
    testWords electronicKeywords (lowerStr "hype love edm") = true ∧
    testWords morningKeywords (lowerStr "hype love edm") = false ∧
    testWords lateNightKeywords (lowerStr "hype love edm") = false ∧
    testWords sunsetKeywords (lowerStr "hype love edm") = false ∧
    testWords workoutKeywords (lowerStr "hype love edm") = false ∧
    testWords focusKeywords (lowerStr "hype love edm") = false ∧
    testWords partyKeywords (lowerStr "hype love edm") = false ∧
    testWords sleepKeywords (lowerStr "hype love edm") = false ∧
    testWords roadTripKeywords (lowerStr "hype love edm") = false ∧
    testWords coffeeKeywords (lowerStr "hype love edm") = false ∧
    (parseVibe "hype love edm").target_energy = some (3 / 5) ∧
    (parseVibe "hype love edm").target_energy ≠ some (11 / 10) := by
  have e1 : testWords energyHighKeywords (lowerStr "hype love edm") = true := by decide
  have v1 : testWords valenceHappyKeywords (lowerStr "hype love edm") = false := by decide
  have v2 : testWords valenceSadKeywords (lowerStr "hype love edm") = false := by decide
  have v3 : testWords valenceAngryKeywords (lowerStr "hype love edm") = false := by decide
  have v4 : testWords valenceRomanticKeywords (lowerStr "hype love edm") = true := by decide
  have d1 : testWords danceHighKeywords (lowerStr "hype love edm") = false := by decide
  have d2 : testWords danceMidKeywords (lowerStr "hype love edm") = false := by decide
  have a1 : testWords acousticKeywords (lowerStr "hype love edm") = false := by decide
  have a2 : testWords electronicKeywords (lowerStr "hype love edm") = true := by decide
  have i1 : testWords instrumentalKeywords (lowerStr "hype love edm") = false := by decide
  have t1 : testWords tempoFastKeywords (lowerStr "hype love edm") = false := by decide
  have t2 : testWords tempoSlowKeywords (lowerStr "hype love edm") = false := by decide
  have c1 : testWords morningKeywords (lowerStr "hype love edm") = false := by decide
  have c2 : testWords lateNightKeywords (lowerStr "hype love edm") = false := by decide
  have c3 : testWords sunsetKeywords (lowerStr "hype love edm") = false := by decide
  have c4 : testWords workoutKeywords (lowerStr "hype love edm") = false := by decide
  have c5 : testWords focusKeywords (lowerStr "hype love edm") = false := by decide
  have c6 : testWords partyKeywords (lowerStr "hype love edm") = false := by decide
  have c7 : testWords sleepKeywords (lowerStr "hype love edm") = false := by decide
  have c8 : testWords roadTripKeywords (lowerStr "hype love edm") = false := by decide
  have c9 : testWords coffeeKeywords (lowerStr "hype love edm") = false := by decide
  have hval : (parseVibe "hype love edm").target_energy = some (2 / 5 + 1 / 5) := by
    simp [parseVibe, e1, v1, v2, v3, v4, d1, d2, a1, a2, i1, t1, t2,
      c1, c2, c3, c4, c5, c6, c7, c8, c9]
  refine ⟨e1, a2, c1, c2, c3, c4, c5, c6, c7, c8, c9, ?_, ?_⟩
  · rw [hval]
    norm_num
  · rw [hval]
    simp only [ne_eq, Option.some.injEq]
    norm_num

/- ### Generation strategies: shared helpers -/

/-- Total duration of a track list in milliseconds, as computed by
    tracks.reduce((sum, t) => sum + t.duration_ms, 0). -/
def totalDuration (l : List SpotifyTrack) : ℕ :=
  l.foldl (fun s t => s + t.duration_ms) 0

/-- The ids of a track list, in order; a TypeScript Set of seen ids is
    modelled as membership in this list. -/
def trackIds (l : List SpotifyTrack) : List String :=
  l.map (fun t => t.id)

/- ### Duration-fill loop of generatePlaylist (lines 1153-1179) -/

/-- The duration-fill while-loop, with the provider abstracted as the
    sequence of its responses (the per-iteration seed reshuffle only
    changes which tracks come back, which the abstraction subsumes) and
    instrumented with the number of provider calls made.  Each iteration
    appends only the response tracks whose id was not already accumulated
    and breaks when an iteration contributes none. -/
def durationFill (provider : ℕ → List SpotifyTrack) (targetDurationMs : ℕ)
    (k : ℕ) (tracks : List SpotifyTrack) : List SpotifyTrack × ℕ :=
  if h : totalDuration tracks < targetDurationMs ∧ tracks.length < 100 then
    let moreTracks := provider k
    let newTracks := moreTracks.filter (fun t => !(trackIds tracks).contains t.id)
    if h2 : newTracks = [] then (tracks, 1)
    else
      let r := durationFill provider targetDurationMs (k + 1) (tracks ++ newTracks)
      (r.1, r.2 + 1)
  else (tracks, 0)
termination_by 100 - tracks.length
decreasing_by
  have h1 : tracks.length < 100 := h.2
  have hpos : 0 < newTracks.length := List.length_pos.mpr h2
  have hlt : tracks.length < (tracks ++ newTracks).length := by
    simp only [List.length_append]
    omega
  exact Nat.sub_lt_sub_left h1 hlt

/- ### Time machine (lines 908-955) -/

/-- JavaScript (o || d) for an optional count: absent and 0 both fall back
    to the default. -/
def orDefault (o : Option ℕ) (d : ℕ) : ℕ :=
  match o with
  | none => d
  | some n => if n = 0 then d else n

/-- The per-year accumulation loop of generateTimeMachinePlaylist (lines
    938-951): each year's response is filtered against already-chosen ids,
    sorted by descending popularity, truncated to tracksPerYear and
    appended. -/
def timeMachineAccum (provider : ℤ → ℕ → List SpotifyTrack) (tracksPerYear : ℕ) :
    List ℤ → List SpotifyTrack → List SpotifyTrack
  | [], allTracks => allTracks
  | year :: rest, allTracks =>
    let yearTracks := provider year (tracksPerYear + 20)
    let sortedTracks :=
      ((yearTracks.filter (fun t => !(trackIds allTracks).contains t.id)).mergeSort
        (fun a b => b.popularity ≤ a.popularity)).take tracksPerYear
    timeMachineAccum provider tracksPerYear rest (allTracks ++ sortedTracks)

/-- The clamp-and-fetch stage of generateTimeMachinePlaylist, shared by
    both year-resolution paths (lines 925-954): clamp to [1950, current
    year], fail when nothing survives, otherwise fetch per year and
    shuffle-truncate. -/
def timeMachineGo (years : List ℤ) (trackCount : Option ℕ) (currentYear : ℤ)
    (provider : ℤ → ℕ → List SpotifyTrack)
    (shuffle : List SpotifyTrack → List SpotifyTrack) :
    Except String (List SpotifyTrack) :=
  let targetYears := years.filter (fun y => decide (1950 ≤ y) && decide (y ≤ currentYear))
  if targetYears = [] then .error "No valid years to search for"
  else
    let count := orDefault trackCount 30
    let tracksPerYear := (count + targetYears.length - 1) / targetYears.length
    .ok ((shuffle (timeMachineAccum provider tracksPerYear targetYears [])).take count)

/-- generateTimeMachinePlaylist: year resolution (explicit target year, or
    the five high-school years from a birth year), the [1950, currentYear]
    clamp with its two failure modes, the per-year fetch loop, and the
    final shuffle (a sort with a random comparator, i.e. some permutation
    of the list) abstracted as a function parameter. -/
def generateTimeMachinePlaylist (targetYear birthYear : Option ℤ)
    (trackCount : Option ℕ) (currentYear : ℤ)
    (provider : ℤ → ℕ → List SpotifyTrack)
    (shuffle : List SpotifyTrack → List SpotifyTrack) :
    Except String (List SpotifyTrack) :=
  match targetYear, birthYear with
  | some y, _ => timeMachineGo [y] trackCount currentYear provider shuffle
  | none, some b =>
    timeMachineGo [b + 14, b + 15, b + 16, b + 17, b + 18] trackCount currentYear
      provider shuffle
  | none, none => .error "Must specify either birthYear or targetYear for time machine"

/- ### Genre deep dive (lines 958-1029) -/

/-- JavaScript String.prototype.includes on character lists. -/
def containsSub (hay needle : List Char) : Bool :=
  needle.isPrefixOf hay ||
    (match hay with
     | [] => false
     | _ :: t => containsSub t needle)

/-- JavaScript String.prototype.split on a single-character separator. -/
def splitOnChar (c : Char) : List Char → List (List Char)
  | [] => [[]]
  | x :: xs =>
    if x = c then [] :: splitOnChar c xs
    else
      match splitOnChar c xs with
      | [] => [[x]]
      | r :: rs => (x :: r) :: rs

/-- The exact-or-substring genre match of generateGenreDeepDive (lines
    966-970): case-insensitive equality or containment in either
    direction. -/
def genreDirectMatch (genre g : String) : Bool :=
  (lowerStr g == lowerStr genre) || containsSub (lowerStr g) (lowerStr genre) ||
    containsSub (lowerStr genre) (lowerStr g)

/-- The token-overlap fuzzy genre match of lines 974-977: some hyphen
    token of the allowed genre occurs in the request, or some space token
    of the request occurs in the allowed genre. -/
def genreFuzzyMatch (genre g : String) : Bool :=
  ((splitOnChar '-' (lowerStr g)).any (fun part => containsSub (lowerStr genre) part)) ||
    ((splitOnChar ' ' (lowerStr genre)).any (fun part => containsSub (lowerStr g) part))

/-- Genre resolution of generateGenreDeepDive (lines 964-984): a direct
    match wins and its allowed-list entry becomes the seed; otherwise a
    fuzzy match merely averts the error while the raw requested genre
    becomes the seed (the source computes matchedGenre || genre with
    matchedGenre undefined on the fuzzy path). -/
def resolveGenreSeed (genre : String) (availableGenres : List String) :
    Except String String :=
  match availableGenres.find? (fun g => genreDirectMatch genre g) with
  | some g => .ok g
  | none =>
    match availableGenres.find? (fun g => genreFuzzyMatch genre g) with
    | some _ => .ok genre
    | none =>
      .error ("Genre \"" ++ genre ++ "\" not available. Try: "
        ++ String.intercalate ", " (availableGenres.take 10) ++ "...")

/-- The first recommendation request of generateGenreDeepDive (lines
    988-1002), including the single user artist seed when one exists. -/
def deepDiveFirstParams (genreSeed : String) (topArtistIds : List String)
    (avgEnergy avgValence : ℚ) (isDeepCuts : Bool) : RecParams :=
  { seed_genres := some [genreSeed]
    limit := some 100
    max_popularity := if isDeepCuts then some 40 else none
    target_energy := some avgEnergy
    target_valence := some avgValence
    seed_artists :=
      match topArtistIds.take 3 with
      | [] => none
      | x :: _ => some [x] }

/-- The supplemental request of generateGenreDeepDive (lines 1013-1017):
    popularity cap relaxed to 50, no artist seeds. -/
def deepDiveSupplementalParams (genreSeed : String) (isDeepCuts : Bool) : RecParams :=
  { seed_genres := some [genreSeed]
    limit := some 50
    max_popularity := if isDeepCuts then some 50 else none }

/-- The post-resolution pipeline of generateGenreDeepDive (lines
    985-1028): first request, deep-cuts filter, at most one supplemental
    request appending only unseen ids, ascending popularity sort, and the
    final truncation. -/
def deepDiveBody (genreSeed : String) (trackCount : Option ℕ) (isDeepCuts : Bool)
    (topArtistIds : List String) (avgEnergy avgValence : ℚ)
    (provider : RecParams → List SpotifyTrack) : List SpotifyTrack :=
  let tracks :=
    provider (deepDiveFirstParams genreSeed topArtistIds avgEnergy avgValence isDeepCuts)
  let tracks := if isDeepCuts then tracks.filter (fun t => t.popularity < 50) else tracks
  let tracks :=
    if tracks.length < orDefault trackCount 25 then
      let moreTracks := provider (deepDiveSupplementalParams genreSeed isDeepCuts)
      tracks ++ moreTracks.filter (fun t => !(trackIds tracks).contains t.id)
    else tracks
  let tracks :=
    if isDeepCuts then tracks.mergeSort (fun a b => a.popularity ≤ b.popularity)
    else tracks
  tracks.take (orDefault trackCount 25)

/-- generateGenreDeepDive with the recommendation provider abstracted as a
    function of the submitted parameters.  The JavaScript truthiness test
    on the genre option also rejects the empty string. -/
def generateGenreDeepDive (genre : Option String) (trackCount : Option ℕ)
    (deepCuts : Option Bool) (availableGenres : List String)
    (topArtistIds : List String) (avgEnergy avgValence : ℚ)
    (provider : RecParams → List SpotifyTrack) : Except String (List SpotifyTrack) :=
  match genre with
  | none => .error "Must specify a genre for deep dive"
  | some genre =>
    if genre = "" then .error "Must specify a genre for deep dive"
    else
      match resolveGenreSeed genre availableGenres with
      | .error e => .error e
      | .ok genreSeed =>
        .ok (deepDiveBody genreSeed trackCount (deepCuts != some false) topArtistIds
          avgEnergy avgValence provider)

/-- Modelled from the spec: the deep-cuts pipeline exactly as §4.4 words
    it — locally filter the first response to popularity < 50, issue one
    supplemental request (popularity cap 50, no artist seeds) only when
    the filtered result is short of the requested count, append only new
    ids, sort ascending by popularity, truncate to the requested count. -/
def deepCutsSpecPipeline (provider : RecParams → List SpotifyTrack)
    (firstParams : RecParams) (genreSeed : String) (count : ℕ) : List SpotifyTrack :=
  let filtered := (provider firstParams).filter (fun t => t.popularity < 50)
  let combined :=
    if filtered.length < count then
      let supplemental :=
        provider { seed_genres := some [genreSeed], limit := some 50, max_popularity := some 50 }
      filtered ++ supplemental.filter (fun t => !(trackIds filtered).contains t.id)
    else filtered
  (combined.mergeSort (fun a b => a.popularity ≤ b.popularity)).take count

/- ### Distinct-ids helper lemmas -/

/-- Passing the not-already-seen filter means the id is genuinely new. -/
theorem not_mem_trackIds_of_filter {tracks : List SpotifyTrack} {t : SpotifyTrack}
    (h : (!(trackIds tracks).contains t.id) = true) : t.id ∉ trackIds tracks := by
  simpa using h

/-- Appending tracks with new, pairwise-distinct ids preserves the
    pairwise-distinct-ids invariant. -/
theorem trackIds_nodup_append {tracks new : List SpotifyTrack}
    (h1 : (trackIds tracks).Nodup) (h2 : (trackIds new).Nodup)
    (hdisj : ∀ t ∈ new, t.id ∉ trackIds tracks) :
    (trackIds (tracks ++ new)).Nodup := by
  have hsplit : trackIds (tracks ++ new) = trackIds tracks ++ trackIds new := by
    simp [trackIds]
  rw [hsplit, List.nodup_append]
  refine ⟨h1, h2, ?_⟩
  intro a ha hb
  obtain ⟨t, ht, rfl⟩ := List.mem_map.mp hb
  exact hdisj t ht ha

/-- Sublists preserve the distinct-ids invariant. -/
theorem trackIds_nodup_sublist {l l' : List SpotifyTrack} (h : List.Sublist l l')
    (hn : (trackIds l').Nodup) : (trackIds l).Nodup := by
  unfold trackIds at hn ⊢
  exact List.Nodup.sublist (h.map (fun t => t.id)) hn

/-- Sorting preserves the distinct-ids invariant. -/
theorem trackIds_nodup_mergeSort (l : List SpotifyTrack)
    (le : SpotifyTrack → SpotifyTrack → Bool) (hn : (trackIds l).Nodup) :
    (trackIds (l.mergeSort le)).Nodup := by
  unfold trackIds at hn ⊢
  exact (((List.mergeSort_perm l le).map (fun t => t.id)).symm).nodup hn

/-- Truncation preserves the distinct-ids invariant. -/
theorem trackIds_nodup_take (l : List SpotifyTrack) (n : ℕ)
    (hn : (trackIds l).Nodup) : (trackIds (l.take n)).Nodup :=
  trackIds_nodup_sublist (List.take_sublist n l) hn

/- ### Claim C4: duration-fill termination -/

/-- Proof-irrelevant unfolding equation for one loop iteration. -/
theorem durationFill_eq (provider : ℕ → List SpotifyTrack) (targetDurationMs k : ℕ)
    (tracks : List SpotifyTrack) :
    durationFill provider targetDurationMs k tracks =
      if totalDuration tracks < targetDurationMs ∧ tracks.length < 100 then
        if (provider k).filter (fun t => !(trackIds tracks).contains t.id) = [] then
          (tracks, 1)
        else
          ((durationFill provider targetDurationMs (k + 1)
            (tracks ++ (provider k).filter (fun t => !(trackIds tracks).contains t.id))).1,
           (durationFill provider targetDurationMs (k + 1)
            (tracks ++ (provider k).filter (fun t => !(trackIds tracks).contains t.id))).2
            + 1)
      else (tracks, 0) := by
  rw [durationFill]
  rfl

/-- If every track the provider can return is already accumulated, the
    first iteration contributes nothing and the loop stops at once with
    exactly one provider call. -/
theorem durationFill_stale (provider : ℕ → List SpotifyTrack)
    (targetDurationMs k : ℕ) (tracks : List SpotifyTrack)
    (hall : ∀ j, ∀ t ∈ provider j, t.id ∈ trackIds tracks)
    (h1 : totalDuration tracks < targetDurationMs) (h2 : tracks.length < 100) :
    durationFill provider targetDurationMs k tracks = (tracks, 1) := by
  have hfilter : (provider k).filter (fun t => !(trackIds tracks).contains t.id) = [] := by
    rw [List.filter_eq_nil_iff]
    intro t ht
    have hm : t.id ∈ trackIds tracks := hall k t ht
    simp [hm]
  rw [durationFill_eq, if_pos ⟨h1, h2⟩, if_pos hfilter]

/-- Every run of the loop ends in one of the three exit states: duration
    target met, 100 tracks reached, or the last provider response
    contributed no unseen id. -/
theorem durationFill_exit (provider : ℕ → List SpotifyTrack) (targetDurationMs : ℕ) :
    ∀ (k : ℕ) (tracks : List SpotifyTrack),
      targetDurationMs ≤ totalDuration (durationFill provider targetDurationMs k tracks).1
      ∨ 100 ≤ (durationFill provider targetDurationMs k tracks).1.length
      ∨ (1 ≤ (durationFill provider targetDurationMs k tracks).2 ∧
          ∀ t ∈ provider (k + (durationFill provider targetDurationMs k tracks).2 - 1),
            t.id ∈ trackIds (durationFill provider targetDurationMs k tracks).1)
  | k, tracks => by
    by_cases h : totalDuration tracks < targetDurationMs ∧ tracks.length < 100
    · by_cases h2 : (provider k).filter (fun t => !(trackIds tracks).contains t.id) = []
      · have heq : durationFill provider targetDurationMs k tracks = (tracks, 1) := by
          rw [durationFill_eq, if_pos h, if_pos h2]
        rw [heq]
        refine Or.inr (Or.inr ⟨le_refl 1, ?_⟩)
        intro t ht
        have ht' : t ∈ provider k := ht
        have hnot := List.filter_eq_nil_iff.mp h2 t ht'
        simpa using hnot
      · have heq : durationFill provider targetDurationMs k tracks
            = ((durationFill provider targetDurationMs (k + 1)
                (tracks ++ (provider k).filter (fun t => !(trackIds tracks).contains t.id))).1,
               (durationFill provider targetDurationMs (k + 1)
                (tracks ++ (provider k).filter (fun t => !(trackIds tracks).contains t.id))).2
                + 1) := by
          rw [durationFill_eq, if_pos h, if_neg h2]
        have ih := durationFill_exit provider targetDurationMs (k + 1)
          (tracks ++ (provider k).filter (fun t => !(trackIds tracks).contains t.id))
        rw [heq]
        rcases ih with h1 | h1 | ⟨ha, hb⟩
        · exact Or.inl h1
        · exact Or.inr (Or.inl h1)
        · refine Or.inr (Or.inr ⟨Nat.le_succ_of_le ha, ?_⟩)
          have hidx : k + ((durationFill provider targetDurationMs (k + 1)
              (tracks ++ (provider k).filter (fun t => !(trackIds tracks).contains t.id))).2
              + 1) - 1
              = (k + 1) + (durationFill provider targetDurationMs (k + 1)
                (tracks ++ (provider k).filter (fun t => !(trackIds tracks).contains t.id))).2
                - 1 := by
            omega
          rw [hidx]
          exact hb
    · rw [durationFill_eq, if_neg h]
      rcases Nat.lt_or_ge (totalDuration tracks) targetDurationMs with hlt | hge
      · refine Or.inr (Or.inl ?_)
        show 100 ≤ tracks.length
        rcases not_and_or.mp h with hc | hc
        · exact absurd hlt hc
        · omega
      · exact Or.inl hge
termination_by k tracks => 100 - tracks.length
decreasing_by
  have hl : tracks.length < 100 := h.2
  have hpos :
      0 < ((provider k).filter (fun t => !(trackIds tracks).contains t.id)).length :=
    List.length_pos.mpr h2
  have hlt : tracks.length
      < (tracks ++ (provider k).filter (fun t => !(trackIds tracks).contains t.id)).length := by
    simp only [List.length_append]
    omega
  exact Nat.sub_lt_sub_left hl hlt

/-- C4: for every duration request the duration-fill loop terminates, and
    it stops only upon meeting the duration target, reaching 100
    accumulated tracks, or an iteration contributing zero not-yet-seen
    tracks; with a provider that only ever returns already-seen ids it
    exits after exactly one iteration (one provider call, list unchanged). -/
theorem durationFill_termination (provider : ℕ → List SpotifyTrack)
    (targetDurationMs k : ℕ) (tracks : List SpotifyTrack) :
    (targetDurationMs ≤ totalDuration (durationFill provider targetDurationMs k tracks).1
      ∨ 100 ≤ (durationFill provider targetDurationMs k tracks).1.length
      ∨ (1 ≤ (durationFill provider targetDurationMs k tracks).2 ∧
          ∀ t ∈ provider (k + (durationFill provider targetDurationMs k tracks).2 - 1),
            t.id ∈ trackIds (durationFill provider targetDurationMs k tracks).1))
    ∧ ((∀ j, ∀ t ∈ provider j, t.id ∈ trackIds tracks) →
        totalDuration tracks < targetDurationMs → tracks.length < 100 →
        durationFill provider targetDurationMs k tracks = (tracks, 1)) :=
  ⟨durationFill_exit provider targetDurationMs k tracks,
   fun hall h1 h2 => durationFill_stale provider targetDurationMs k tracks hall h1 h2⟩

/-- Witness for C4: a provider that always returns the already-seen sample
    track makes the loop exit after exactly one iteration. -/
theorem durationFill_termination_witness :
    (∀ j, ∀ t ∈ (fun _ : ℕ => [sampleTrack]) j, t.id ∈ trackIds [sampleTrack]) ∧
    totalDuration [sampleTrack] < 10000000 ∧
    ([sampleTrack] : List SpotifyTrack).length < 100 ∧
    durationFill (fun _ => [sampleTrack]) 10000000 0 [sampleTrack] = ([sampleTrack], 1) := by
  have hall : ∀ j, ∀ t ∈ (fun _ : ℕ => [sampleTrack]) j, t.id ∈ trackIds [sampleTrack] := by
    intro j t ht
    simp only [List.mem_singleton] at ht
    subst ht
    simp [trackIds]
  refine ⟨hall, by decide, by decide, ?_⟩
  exact (durationFill_termination (fun _ => [sampleTrack]) 10000000 0 [sampleTrack]).2
    hall (by decide) (by decide)

/- ### Claim C7: duplicate-free accumulation -/

/-- The duration-fill loop preserves pairwise-distinct ids when every
    provider response is duplicate-free. -/
theorem durationFill_nodup (provider : ℕ → List SpotifyTrack) (targetDurationMs : ℕ) :
    ∀ (k : ℕ) (tracks : List SpotifyTrack),
      (trackIds tracks).Nodup → (∀ j, (trackIds (provider j)).Nodup) →
      (trackIds (durationFill provider targetDurationMs k tracks).1).Nodup
  | k, tracks => by
    intro hn hp
    by_cases h : totalDuration tracks < targetDurationMs ∧ tracks.length < 100
    · by_cases h2 : (provider k).filter (fun t => !(trackIds tracks).contains t.id) = []
      · rw [durationFill_eq, if_pos h, if_pos h2]
        exact hn
      · rw [durationFill_eq, if_pos h, if_neg h2]
        have hnew : (trackIds (tracks ++ (provider k).filter
            (fun t => !(trackIds tracks).contains t.id))).Nodup := by
          apply trackIds_nodup_append hn
          · exact trackIds_nodup_sublist (List.filter_sublist (provider k)) (hp k)
          · intro t ht
            exact not_mem_trackIds_of_filter (List.mem_filter.mp ht).2
        exact durationFill_nodup provider targetDurationMs (k + 1)
          (tracks ++ (provider k).filter (fun t => !(trackIds tracks).contains t.id)) hnew hp
    · rw [durationFill_eq, if_neg h]
      exact hn
termination_by k tracks => 100 - tracks.length
decreasing_by
  have hl : tracks.length < 100 := h.2
  have hpos :
      0 < ((provider k).filter (fun t => !(trackIds tracks).contains t.id)).length :=
    List.length_pos.mpr h2
  have hlt : tracks.length
      < (tracks ++ (provider k).filter (fun t => !(trackIds tracks).contains t.id)).length := by
    simp only [List.length_append]
    omega
  exact Nat.sub_lt_sub_left hl hlt

/-- The year-by-year accumulation of the time machine preserves
    pairwise-distinct ids when every provider response is duplicate-free. -/
theorem timeMachineAccum_nodup (provider : ℤ → ℕ → List SpotifyTrack) (tracksPerYear : ℕ) :
    ∀ (years : List ℤ) (acc : List SpotifyTrack),
      (trackIds acc).Nodup → (∀ y n, (trackIds (provider y n)).Nodup) →
      (trackIds (timeMachineAccum provider tracksPerYear years acc)).Nodup
  | [], _ => fun hn _ => hn
  | year :: rest, acc => by
    intro hn hp
    have hnew : (trackIds (acc ++ (((provider year (tracksPerYear + 20)).filter
        (fun t => !(trackIds acc).contains t.id)).mergeSort
        (fun a b => b.popularity ≤ a.popularity)).take tracksPerYear)).Nodup := by
      apply trackIds_nodup_append hn
      · apply trackIds_nodup_take
        apply trackIds_nodup_mergeSort
        exact trackIds_nodup_sublist (List.filter_sublist _) (hp year (tracksPerYear + 20))
      · intro t ht
        have ht1 := List.mem_of_mem_take ht
        have ht2 := List.mem_mergeSort.mp ht1
        exact not_mem_trackIds_of_filter (List.mem_filter.mp ht2).2
    exact timeMachineAccum_nodup provider tracksPerYear rest
      (acc ++ (((provider year (tracksPerYear + 20)).filter
        (fun t => !(trackIds acc).contains t.id)).mergeSort
        (fun a b => b.popularity ≤ a.popularity)).take tracksPerYear) hnew hp

/-- Conditional deep-cuts filtering preserves the distinct-ids invariant. -/
theorem trackIds_nodup_ite_filter (b : Bool) (l : List SpotifyTrack)
    (p : SpotifyTrack → Bool) (hn : (trackIds l).Nodup) :
    (trackIds (if b then l.filter p else l)).Nodup := by
  cases b
  · simpa using hn
  · simpa using trackIds_nodup_sublist (List.filter_sublist l) hn

/-- Conditional sorting preserves the distinct-ids invariant. -/
theorem trackIds_nodup_ite_mergeSort (b : Bool) (l : List SpotifyTrack)
    (le : SpotifyTrack → SpotifyTrack → Bool) (hn : (trackIds l).Nodup) :
    (trackIds (if b then l.mergeSort le else l)).Nodup := by
  cases b
  · simpa using hn
  · simpa using trackIds_nodup_mergeSort l le hn

/-- The supplemental fetch appends only unseen ids, preserving the
    distinct-ids invariant. -/
theorem trackIds_nodup_supplemental (l more : List SpotifyTrack) (c : ℕ)
    (h1 : (trackIds l).Nodup) (h2 : (trackIds more).Nodup) :
    (trackIds (if l.length < c then
      l ++ more.filter (fun t => !(trackIds l).contains t.id) else l)).Nodup := by
  by_cases hc : l.length < c
  · rw [if_pos hc]
    apply trackIds_nodup_append h1
    · exact trackIds_nodup_sublist (List.filter_sublist more) h2
    · intro t ht
      exact not_mem_trackIds_of_filter (List.mem_filter.mp ht).2
  · rw [if_neg hc]
    exact h1

/-- The whole deep-dive pipeline returns pairwise-distinct ids when every
    provider response is duplicate-free. -/
theorem deepDiveBody_nodup (genreSeed : String) (trackCount : Option ℕ)
    (isDeepCuts : Bool) (topArtistIds : List String) (avgEnergy avgValence : ℚ)
    (provider : RecParams → List SpotifyTrack)
    (hp : ∀ p, (trackIds (provider p)).Nodup) :
    (trackIds (deepDiveBody genreSeed trackCount isDeepCuts topArtistIds
      avgEnergy avgValence provider)).Nodup := by
  simp only [deepDiveBody]
  apply trackIds_nodup_take
  apply trackIds_nodup_ite_mergeSort
  apply trackIds_nodup_supplemental
  · apply trackIds_nodup_ite_filter
    exact hp _
  · exact hp _

/-- The failure-or-result wrapper transfers the invariant to any returned
    list. -/
theorem generateGenreDeepDive_nodup (genre : Option String) (trackCount : Option ℕ)
    (deepCuts : Option Bool) (availableGenres topArtistIds : List String)
    (avgEnergy avgValence : ℚ) (provider : RecParams → List SpotifyTrack)
    (hp : ∀ p, (trackIds (provider p)).Nodup) (l : List SpotifyTrack)
    (hok : generateGenreDeepDive genre trackCount deepCuts availableGenres topArtistIds
      avgEnergy avgValence provider = .ok l) :
    (trackIds l).Nodup := by
  cases genre with
  | none => exact absurd hok (by simp [generateGenreDeepDive])
  | some g =>
    by_cases hg : g = ""
    · rw [generateGenreDeepDive] at hok
      rw [if_pos hg] at hok
      exact absurd hok (by simp)
    · rw [generateGenreDeepDive] at hok
      rw [if_neg hg] at hok
      cases hres : resolveGenreSeed g availableGenres with
      | error e =>
        rw [hres] at hok
        exact absurd hok (by simp)
      | ok seed =>
        rw [hres] at hok
        have hok2 : (Except.ok (deepDiveBody seed trackCount
            (deepCuts != some false) topArtistIds avgEnergy avgValence provider)
            : Except String (List SpotifyTrack)) = Except.ok l := hok
        have hl : deepDiveBody seed trackCount (deepCuts != some false) topArtistIds
            avgEnergy avgValence provider = l := by
          injection hok2
        rw [← hl]
        exact deepDiveBody_nodup seed trackCount (deepCuts != some false) topArtistIds
          avgEnergy avgValence provider hp

/-- C7: each of the three accumulating strategies — the duration-fill loop,
    the time-machine year-by-year fetch, and the genre-deep-dive pipeline
    with its supplemental fetch — keeps the accumulated track ids pairwise
    distinct whenever every individual provider response is
    duplicate-free. -/
theorem accumulation_distinct_ids :
    (∀ (provider : ℕ → List SpotifyTrack) (targetDurationMs k : ℕ)
        (tracks : List SpotifyTrack),
      (trackIds tracks).Nodup → (∀ j, (trackIds (provider j)).Nodup) →
      (trackIds (durationFill provider targetDurationMs k tracks).1).Nodup)
    ∧ (∀ (provider : ℤ → ℕ → List SpotifyTrack) (tracksPerYear : ℕ) (years : List ℤ)
        (acc : List SpotifyTrack),
      (trackIds acc).Nodup → (∀ y n, (trackIds (provider y n)).Nodup) →
      (trackIds (timeMachineAccum provider tracksPerYear years acc)).Nodup)
    ∧ (∀ (genre : Option String) (trackCount : Option ℕ) (deepCuts : Option Bool)
        (availableGenres topArtistIds : List String) (avgEnergy avgValence : ℚ)
        (provider : RecParams → List SpotifyTrack) (l : List SpotifyTrack),
      (∀ p, (trackIds (provider p)).Nodup) →
      generateGenreDeepDive genre trackCount deepCuts availableGenres topArtistIds
        avgEnergy avgValence provider = .ok l →
      (trackIds l).Nodup) :=
  ⟨fun provider targetDurationMs k tracks hn hp =>
      durationFill_nodup provider targetDurationMs k tracks hn hp,
   fun provider tracksPerYear years acc hn hp =>
      timeMachineAccum_nodup provider tracksPerYear years acc hn hp,
   fun genre trackCount deepCuts availableGenres topArtistIds avgEnergy avgValence
      provider l hp hok =>
      generateGenreDeepDive_nodup genre trackCount deepCuts availableGenres topArtistIds
        avgEnergy avgValence provider hp l hok⟩

/-- Witness for C7 at concrete inputs for all three strategies. -/
theorem accumulation_distinct_ids_witness :
    (trackIds (durationFill (fun _ => []) 0 0 []).1).Nodup ∧
    (trackIds (timeMachineAccum (fun _ _ => []) 10 [2000] [])).Nodup ∧
    generateGenreDeepDive (some "rock") none (some false) ["rock"] [] 0 0
      (fun _ => [sampleTrack]) = .ok [sampleTrack] ∧
    (trackIds [sampleTrack]).Nodup :=
  ⟨accumulation_distinct_ids.1 (fun _ => []) 0 0 [] List.nodup_nil
      (fun _ => List.nodup_nil),
   accumulation_distinct_ids.2.1 (fun _ _ => []) 10 [2000] [] List.nodup_nil
      (fun _ _ => List.nodup_nil),
   rfl,
   accumulation_distinct_ids.2.2 (some "rock") none (some false) ["rock"] [] 0 0
      (fun _ => [sampleTrack]) [sampleTrack] (fun _ => List.nodup_singleton sampleTrack.id)
      rfl⟩

/- ### Claim C5: time machine failure modes -/

/-- C5: when the [1950, current year] clamp removes every candidate year
    (single target year or the five high-school years derived from a birth
    year), generateTimeMachinePlaylist fails with the no-valid-years error
    instead of returning an empty playlist, and it fails with the
    missing-input error when neither year was supplied. -/
theorem timeMachine_failure_modes :
    (∀ (birthYear currentYear : ℤ) (trackCount : Option ℕ)
        (provider : ℤ → ℕ → List SpotifyTrack)
        (shuffle : List SpotifyTrack → List SpotifyTrack),
      ([birthYear + 14, birthYear + 15, birthYear + 16, birthYear + 17,
        birthYear + 18].filter
          (fun y => decide (1950 ≤ y) && decide (y ≤ currentYear))) = [] →
      generateTimeMachinePlaylist none (some birthYear) trackCount currentYear
        provider shuffle = .error "No valid years to search for")
    ∧ (∀ (targetYear currentYear : ℤ) (trackCount : Option ℕ)
        (provider : ℤ → ℕ → List SpotifyTrack)
        (shuffle : List SpotifyTrack → List SpotifyTrack),
      ([targetYear].filter
          (fun y => decide (1950 ≤ y) && decide (y ≤ currentYear))) = [] →
      generateTimeMachinePlaylist (some targetYear) none trackCount currentYear
        provider shuffle = .error "No valid years to search for")
    ∧ (∀ (trackCount : Option ℕ) (currentYear : ℤ)
        (provider : ℤ → ℕ → List SpotifyTrack)
        (shuffle : List SpotifyTrack → List SpotifyTrack),
      generateTimeMachinePlaylist none none trackCount currentYear provider shuffle
        = .error "Must specify either birthYear or targetYear for time machine") := by
  refine ⟨?_, ?_, ?_⟩
  · intro birthYear currentYear trackCount provider shuffle hempty
    simp only [generateTimeMachinePlaylist, timeMachineGo]
    rw [if_pos hempty]
  · intro targetYear currentYear trackCount provider shuffle hempty
    simp only [generateTimeMachinePlaylist, timeMachineGo]
    rw [if_pos hempty]
  · intro trackCount currentYear provider shuffle
    rfl

/-- Witness for C5: birthYear 1800 gives candidate years 1814-1818, all
    removed by the clamp against current year 2026. -/
theorem timeMachine_failure_modes_witness :
    ([1800 + 14, 1800 + 15, 1800 + 16, 1800 + 17, (1800 : ℤ) + 18].filter
      (fun y => decide (1950 ≤ y) && decide (y ≤ (2026 : ℤ)))) = [] ∧
    generateTimeMachinePlaylist none (some 1800) none 2026 (fun _ _ => [])
      (fun l => l) = .error "No valid years to search for" :=
  ⟨by decide,
   timeMachine_failure_modes.1 1800 2026 none (fun _ _ => []) (fun l => l) (by decide)⟩

/- ### Claim C6: deep-cuts pipeline refines the spec description -/

/-- The JavaScript test options.deepCuts !== false evaluates to true
    whenever the option is not literally false. -/
theorem isDeepCuts_true {deepCuts : Option Bool} (h : deepCuts ≠ some false) :
    (deepCuts != some false) = true := by
  cases deepCuts with
  | none => rfl
  | some b =>
    cases b with
    | false => exact absurd rfl h
    | true => rfl

/-- In deep-cuts mode the source pipeline coincides definitionally with
    the pipeline described by the spec. -/
theorem deepDiveBody_deepcuts_eq_spec (genreSeed : String) (trackCount : Option ℕ)
    (topArtistIds : List String) (avgEnergy avgValence : ℚ)
    (provider : RecParams → List SpotifyTrack) :
    deepDiveBody genreSeed trackCount true topArtistIds avgEnergy avgValence provider
      = deepCutsSpecPipeline provider
          (deepDiveFirstParams genreSeed topArtistIds avgEnergy avgValence true)
          genreSeed (orDefault trackCount 25) := rfl

/-- C6: in deep-cuts mode (deepCuts not explicitly false) with a resolved
    genre seed, generateGenreDeepDive returns exactly the spec's pipeline:
    filter the first response to popularity < 50, at most one supplemental
    request (cap 50, no artist seeds) only when short of the requested
    count, append only new ids, sort ascending by popularity, truncate to
    the requested count. -/
theorem generateGenreDeepDive_deepcuts_spec (g : String) (trackCount : Option ℕ)
    (deepCuts : Option Bool) (availableGenres topArtistIds : List String)
    (avgEnergy avgValence : ℚ) (provider : RecParams → List SpotifyTrack)
    (seed : String) (hg : g ≠ "")
    (hres : resolveGenreSeed g availableGenres = .ok seed)
    (hcuts : deepCuts ≠ some false) :
    generateGenreDeepDive (some g) trackCount deepCuts availableGenres topArtistIds
      avgEnergy avgValence provider
      = .ok (deepCutsSpecPipeline provider
          (deepDiveFirstParams seed topArtistIds avgEnergy avgValence true)
          seed (orDefault trackCount 25)) := by
  rw [generateGenreDeepDive, if_neg hg, hres]
  show (Except.ok (deepDiveBody seed trackCount (deepCuts != some false) topArtistIds
    avgEnergy avgValence provider) : Except String (List SpotifyTrack)) = _
  rw [isDeepCuts_true hcuts, deepDiveBody_deepcuts_eq_spec]

/-- Witness for C6 at a directly-matching genre with an empty provider. -/
theorem generateGenreDeepDive_deepcuts_spec_witness :
    ("rock" : String) ≠ "" ∧
    resolveGenreSeed "rock" ["rock"] = .ok "rock" ∧
    ((none : Option Bool) ≠ some false) ∧
    generateGenreDeepDive (some "rock") none none ["rock"] [] 0 0 (fun _ => [])
      = .ok (deepCutsSpecPipeline (fun _ => [])
          (deepDiveFirstParams "rock" [] 0 0 true) "rock" (orDefault none 25)) :=
  ⟨by decide, rfl, by decide,
   generateGenreDeepDive_deepcuts_spec "rock" none none ["rock"] [] 0 0 (fun _ => [])
     "rock" (by decide) rfl (by decide)⟩

/- ### Claim C10: fuzzy genre match submits the raw genre -/

/-- C10: when no allowed genre matches exactly or by substring but the
    token-overlap fuzzy path matches, the deep dive does not fail, and the
    genre seed submitted to the provider is the raw requested genre string
    (resolveGenreSeed returns the request itself, which deepDiveBody then
    places into seed_genres of both requests). -/
theorem genreFuzzy_uses_raw_genre (genre : String) (availableGenres : List String)
    (hdirect : availableGenres.find? (fun g => genreDirectMatch genre g) = none)
    (hfuzzy : (availableGenres.find? (fun g => genreFuzzyMatch genre g)).isSome = true) :
    resolveGenreSeed genre availableGenres = .ok genre ∧
    ∀ (trackCount : Option ℕ) (deepCuts : Option Bool) (topArtistIds : List String)
      (avgEnergy avgValence : ℚ) (provider : RecParams → List SpotifyTrack),
      generateGenreDeepDive (some genre) trackCount deepCuts availableGenres topArtistIds
        avgEnergy avgValence provider
        = .ok (deepDiveBody genre trackCount (deepCuts != some false) topArtistIds
            avgEnergy avgValence provider) := by
  have hres : resolveGenreSeed genre availableGenres = .ok genre := by
    unfold resolveGenreSeed
    rw [hdirect]
    obtain ⟨g', hg'⟩ := Option.isSome_iff_exists.mp hfuzzy
    rw [hg']
  have hg : genre ≠ "" := by
    intro hcontra
    subst hcontra
    cases havail : availableGenres with
    | nil =>
      rw [havail] at hfuzzy
      simp at hfuzzy
    | cons a rest =>
      rw [havail] at hdirect
      have h2 : containsSub (lowerStr a) (lowerStr "") = true := by
        have he : lowerStr "" = [] := rfl
        rw [he, containsSub.eq_def]
        simp [List.isPrefixOf]
      have hmatch : genreDirectMatch "" a = true := by
        simp [genreDirectMatch, h2]
      simp [List.find?, hmatch] at hdirect
  refine ⟨hres, ?_⟩
  intro trackCount deepCuts topArtistIds avgEnergy avgValence provider
  rw [generateGenreDeepDive, if_neg hg, hres]

/-- Witness for C10: genre "synthwave" against allowed list ["synth-pop"]
    resolves through the fuzzy path to the raw string "synthwave". -/
theorem genreFuzzy_uses_raw_genre_witness :
    (["synth-pop"].find? (fun g => genreDirectMatch "synthwave" g) = none) ∧
    ((["synth-pop"].find? (fun g => genreFuzzyMatch "synthwave" g)).isSome = true) ∧
    resolveGenreSeed "synthwave" ["synth-pop"] = .ok "synthwave" ∧
    generateGenreDeepDive (some "synthwave") none none ["synth-pop"] [] 0 0 (fun _ => [])
      = .ok (deepDiveBody "synthwave" none ((none : Option Bool) != some false) [] 0 0
          (fun _ => [])) :=
  ⟨by decide, by decide,
   (genreFuzzy_uses_raw_genre "synthwave" ["synth-pop"] (by decide) (by decide)).1,
   (genreFuzzy_uses_raw_genre "synthwave" ["synth-pop"] (by decide) (by decide)).2
     none none [] 0 0 (fun _ => [])⟩

end SpotifyGen
